import Mathlib

/-!
Shallow embedding of `src/r3dupdate.py`, a linear self-update script for the
r3dfox browser.  The script's interactions with the outside world (platform
probe, filesystem existence checks, file reads, HTTP fetches, the child
installer process) are modelled by a `World` record of the answers the
environment would give, and the script itself becomes a pure function
`script : World → Outcome` returning the process exit code, the printed
lines in order, and the trace of filesystem / network / process operations
it performed.
-/

namespace R3d

/-- Python string `<=` on two character lists: lexicographic by code point
(`latest_tag <= current_version` at line 99 of the source). -/
def pyListLe : List Char → List Char → Bool
  | [], _ => true
  | _ :: _, [] => false
  | a :: as, b :: bs =>
    if a.val < b.val then true
    else if b.val < a.val then false
    else pyListLe as bs

/-- Python string `<=` (lexicographic by code point). -/
def pyStrLe (a b : String) : Bool := pyListLe a.data b.data

/-- Maximal run of decimal digits at the head of the list (`\d+` greedy):
the digits taken and the rest. -/
def takeDigits : List Char → List Char × List Char
  | [] => ([], [])
  | c :: cs =>
    if c.isDigit then
      let p := takeDigits cs
      (c :: p.1, p.2)
    else ([], c :: cs)

/-- Greedy `(?:\.\d+)+`-style repetition: as many groups of a dot followed
by one or more digits as possible, fuelled by the input length (each group
consumes at least two characters, so the fuel never runs out on real
input).  Returns the consumed characters and the rest. -/
def takeGroupsF : Nat → List Char → List Char × List Char
  | 0, cs => ([], cs)
  | fuel + 1, cs =>
    match cs with
    | '.' :: rest =>
      match takeDigits rest with
      | ([], _) => ([], cs)
      | (d :: ds, r) =>
        let p := takeGroupsF fuel r
        ('.' :: (d :: ds) ++ p.1, p.2)
    | _ => ([], cs)

/-- The regex `\d+(?:\.\d+)+` anchored at the head of the list: `some`
of the matched text when it matches, `none` otherwise. -/
def matchVersionAt (cs : List Char) : Option (List Char) :=
  match takeDigits cs with
  | ([], _) => none
  | (d :: ds, r) =>
    match takeGroupsF (r.length + 1) r with
    | ([], _) => none
    | (g :: gs, _) => some ((d :: ds) ++ g :: gs)

/-- Whether the second list starts with the first. -/
def listStarts : List Char → List Char → Bool
  | [], _ => true
  | _ :: _, [] => false
  | p :: ps, c :: cs => p == c && listStarts ps cs

/-- `re.search(r'Version=(\d+(?:\.\d+)+)', content)` from line 69 of the
source: scan left to right for an occurrence of `Version=` followed by a
match of `\d+(?:\.\d+)+`; the captured group of the first such occurrence. -/
def searchVersionIn : List Char → Option (List Char)
  | [] => none
  | c :: cs =>
    if listStarts "Version=".data (c :: cs) then
      match matchVersionAt (List.drop 8 (c :: cs)) with
      | some m => some m
      | none => searchVersionIn cs
    else searchVersionIn cs

/-- Python `str.lower()` restricted to the ASCII range, which is all the
source's patterns and asset names use. -/
def lowerList (cs : List Char) : List Char := cs.map Char.toLower

/-- Python `pat in s` on character lists: substring containment. -/
def listHasSub (pat : List Char) : List Char → Bool
  | [] => pat.isEmpty
  | c :: cs => listStarts pat (c :: cs) || listHasSub pat cs

/-- Python `s.endswith(suf)` on character lists. -/
def listEnds (suf s : List Char) : Bool := listStarts suf.reverse s.reverse

/-- A release asset as the script reads it from the JSON feed:
`{name, browser_download_url}`. -/
structure Asset where
  name : String
  url : String
deriving DecidableEq

/-- The successfully fetched and parsed feed body: `tag_name` and the
`assets` array, in feed order. -/
structure ReleaseData where
  tag_name : String
  assets : List Asset
deriving DecidableEq

/-- An observable side effect of the script: an HTTP GET (with the custom
headers and the explicit timeout passed to the request, if any), a file
created, a directory created, a file removed, or a child process spawned. -/
inductive Op where
  | httpGet (url : String) (headers : List (String × String)) (timeout : Option Nat)
  | createFile (path : String)
  | mkdir (path : String)
  | removeFile (path : String)
  | runProc (cmd : List String)
deriving DecidableEq

/-- What a run of the script produces: the process exit code, the printed
lines in order, and the trace of side effects in order. -/
structure Outcome where
  exitCode : Nat
  output : List String
  ops : List Op
deriving DecidableEq

/-- The environment's answers to everything the script asks of the outside
world, fixed before the run: platform name, word size, the WOW64 environment
variable, existence of the install directory / main executable /
`application.ini`, the text `application.ini` yields (`none` models a read
that raises), the fetched feed (`none` models `URLError`/`HTTPError`/JSON/key
errors), the OS temp directory path, whether the asset download succeeds,
and the child installer's result (`some code`, or `none` for an exception
raised by `subprocess.run`). -/
structure World where
  platformSystem : String
  sysMaxsizeGt32 : Bool
  archEnv : String
  installDirExists : Bool
  firefoxExeExists : Bool
  appIniExists : Bool
  appIniRead : Option String
  readErr : String
  fetch : Option ReleaseData
  fetchErr : String
  tempDir : String
  downloadOk : Bool
  dlErr : String
  runResult : Option Int
  runStdout : String
  runStderr : String
  runErr : String
deriving DecidableEq

/-- `INSTALL_DIR` of the source (line 24). -/
def INSTALL_DIR : String := "C:\\Program Files\\Eclipse Community\\r3dfox"

/-- `LATEST_API` of the source (line 27). -/
def LATEST_API : String :=
  "https://api.github.com/repos/Eclipse-Community/r3dfox/releases/latest"

/-- The `ASSET_PATTERNS` dictionary of the source (lines 30-35), as the
lookup `ASSET_PATTERNS[arch]` over its two keys. -/
def ASSET_PATTERNS (arch : String) : String :=
  if arch = "win32" then "r3dfox-win32-installer.exe" else "r3dfox-win64-installer.exe"

/-- Lines 45-46 of the source:
`is_64bit = sys.maxsize > 2**32 or os.environ.get("PROCESSOR_ARCHITEW6432", "")`
(Python `or` yields the first truthy operand, so the whole is truthy exactly
when the comparison is true or the environment string is non-empty), then
`arch = "win64" if is_64bit else "win32"`. -/
def detectArch (sysGt : Bool) (envVal : String) : String :=
  if sysGt || !(envVal == "") then "win64" else "win32"

/-- `get_current_version` (lines 61-77 of the source): `none` when
`application.ini` is absent, when reading it raises, or when the regex
`Version=(\d+(?:\.\d+)+)` finds no match; otherwise the captured group.
The second component is the lines the function prints. -/
def get_current_version (w : World) : Option String × List String :=
  if !w.appIniExists then
    (none, ["application.ini not found. Cannot determine current version."])
  else
    match w.appIniRead with
    | none => (none, ["Error reading application.ini: " ++ w.readErr])
    | some content =>
      match searchVersionIn content.data with
      | some m => (some (String.mk m), [])
      | none => (none, ["Could not parse version from application.ini."])

/-- The asset test of lines 107-109 of the source:
`pattern in name and name.endswith('.exe')` after lowercasing both the asset
name and `ASSET_PATTERNS[arch]`. -/
def assetMatches (arch name : String) : Bool :=
  let n := lowerList name.data
  listHasSub (lowerList (ASSET_PATTERNS arch).data) n && listEnds ".exe".data n

/-- The selection loop of lines 104-112 of the source: the first asset of
the feed, in order, passing `assetMatches`. -/
def findAsset (arch : String) (assets : List Asset) : Option Asset :=
  assets.find? fun a => assetMatches arch a.name

/-- Steps 4 and 5 of the source (lines 123-158): download the chosen asset
into the OS temp directory under its original name, run it with `/S`, and
remove the downloaded file in the `finally` block of the execution `try`.
`o` and `ops` are the output and trace accumulated so far. -/
def installPhase (w : World) (latest_tag installer_name installer_url : String)
    (o : List String) (ops : List Op) : Outcome :=
  let installer_path := w.tempDir ++ "\\" ++ installer_name
  let o := o ++ ["Downloading installer to " ++ installer_path ++ "..."]
  let ops := ops ++ [Op.httpGet installer_url [] none]
  if w.downloadOk then
    let ops := ops ++ [Op.createFile installer_path]
    let o := o ++ ["Download completed.", "Executing installer silently..."]
    let ops := ops ++ [Op.runProc [installer_path, "/S"]]
    match w.runResult with
    | some code =>
      if code = 0 then
        ⟨0, o ++ ["Installation completed successfully. Updated to " ++ latest_tag ++ "."],
          ops ++ [Op.removeFile installer_path]⟩
      else
        ⟨1, o ++ ["Installer returned code " ++ toString code ++ ". Output: " ++
              w.runStdout ++ " " ++ w.runStderr],
          ops ++ [Op.removeFile installer_path]⟩
    | none =>
      ⟨1, o ++ ["Error executing installer: " ++ w.runErr],
        ops ++ [Op.removeFile installer_path]⟩
  else
    ⟨1, o ++ ["Download failed: " ++ w.dlErr], ops⟩

/-- Lines 103-121 of the source: pick the installer asset, or print the
available-assets diagnostic and exit 1. -/
def selectPhase (w : World) (arch latest_tag : String) (assets : List Asset)
    (o : List String) (ops : List Op) : Outcome :=
  match findAsset arch assets with
  | none =>
    ⟨1, o ++ ["No matching installer .exe found for " ++ arch ++ ".",
          "Available assets:"] ++ assets.map (fun a => "  - " ++ a.name), ops⟩
  | some asset =>
    installPhase w latest_tag asset.name asset.url
      (o ++ ["Found installer: " ++ asset.name]) ops

/-- The whole script, lines 40-158 of the source, as a function of the
environment. -/
def script (w : World) : Outcome :=
  if !(w.platformSystem == "Windows") then
    ⟨1, ["This script only runs on Windows."], []⟩
  else
    let arch := detectArch w.sysMaxsizeGt32 w.archEnv
    let o := ["Detected architecture: " ++ arch]
    if !w.installDirExists then
      ⟨1, o ++ ["No r3dfox installation found in '" ++ INSTALL_DIR ++
            "'. Please install first."], []⟩
    else if !w.firefoxExeExists then
      ⟨1, o ++ ["firefox.exe not found in '" ++ INSTALL_DIR ++
            "'. Installation may be incomplete."], []⟩
    else
      let cvp := get_current_version w
      let o := o ++ cvp.2 ++
        (match cvp.1 with
         | some v =>
           if v == "" then ["Warning: Could not detect current version. Proceeding anyway."]
           else ["Current version: " ++ v]
         | none => ["Warning: Could not detect current version. Proceeding anyway."])
      let o := o ++ ["Fetching latest r3dfox release info..."]
      let ops := [Op.httpGet LATEST_API [] none]
      match w.fetch with
      | none => ⟨1, o ++ ["Error fetching release info: " ++ w.fetchErr], ops⟩
      | some data =>
        let latest_tag := data.tag_name
        let o := o ++ ["Latest version: " ++ latest_tag]
        match cvp.1 with
        | some v =>
          if !(v == "") && pyStrLe latest_tag v then
            ⟨0, o ++ ["Current version " ++ v ++ " is up to date or newer than " ++
                  latest_tag ++ ". No update needed."], ops⟩
          else
            selectPhase w arch latest_tag data.assets o ops
        | none => selectPhase w arch latest_tag data.assets o ops

/-! ### The comparison policy in the spec's words

The spec prescribes the numeric-aware policy ("split on '.', compare
components as integers, pad shorter with zeros") and calls the plain string
comparison the source performs a bug.  The following definitions follow the
spec's words, for comparison with `pyStrLe` above. -/

/-- Split a character list on the dot character (Python `s.split('.')`). -/
def splitDots : List Char → List (List Char)
  | [] => [[]]
  | c :: cs =>
    if c = '.' then [] :: splitDots cs
    else
      match splitDots cs with
      | [] => [[c]]
      | g :: gs => (c :: g) :: gs

/-- The non-negative integer a digit string denotes. -/
def natOfDigits (cs : List Char) : Nat :=
  cs.foldl (fun n c => n * 10 + (c.toNat - 48)) 0

/-- The dot-separated components of a version string, as integers. -/
def specComponents (s : String) : List Nat := (splitDots s.data).map natOfDigits

/-- Componentwise order on integer component lists, the shorter padded with
zeros: when the left side runs out its remaining components are zeros, so it
is below exactly when some remaining right component is positive; when the
right side runs out, each remaining left component is compared with zero. -/
def specLtPadded : List Nat → List Nat → Bool
  | [], bs => bs.any fun b => 0 < b
  | a :: as, [] => if 0 < a then false else specLtPadded as []
  | a :: as, b :: bs =>
    if a < b then true else if b < a then false else specLtPadded as bs

/-- The spec's numeric-aware strict order on version strings. -/
def specVersionLt (a b : String) : Bool :=
  specLtPadded (specComponents a) (specComponents b)

/-- Whether an operation of the trace is a directory creation. -/
def Op.isMkdir : Op → Bool
  | .mkdir _ => true
  | _ => false

/-- The HTTP GET requests of a trace: URL, custom headers, explicit timeout. -/
def httpCalls : List Op → List (String × List (String × String) × Option Nat)
  | [] => []
  | Op.httpGet u h t :: ops => (u, h, t) :: httpCalls ops
  | _ :: ops => httpCalls ops

/-! ### Concrete environments used to instantiate the theorems -/

/-- A healthy Windows environment: installation present, readable
`application.ini` with version `140.5.0`, feed tag `v144.0.2` with one
matching win64 asset, successful download, child exit 0. -/
def baseWorld : World :=
  { platformSystem := "Windows"
    sysMaxsizeGt32 := true
    archEnv := ""
    installDirExists := true
    firefoxExeExists := true
    appIniExists := true
    appIniRead := some "[App]\nVersion=140.5.0\n"
    readErr := ""
    fetch := some { tag_name := "v144.0.2"
                    assets := [{ name := "r3dfox-win64-installer.exe"
                                 url := "https://dl.test/r3dfox-win64-installer.exe" }] }
    fetchErr := ""
    tempDir := "C:\\Temp"
    downloadOk := true
    dlErr := ""
    runResult := some 0
    runStdout := ""
    runStderr := ""
    runErr := "" }

/-- `baseWorld` with installed version `9.0` and feed tag `10.0`: numerically
an update is available, lexicographically it is not. -/
def nineTenWorld : World :=
  { baseWorld with
    appIniRead := some "[App]\nVersion=9.0\n"
    fetch := some { tag_name := "10.0"
                    assets := [{ name := "r3dfox-win64-installer.exe"
                                 url := "https://dl.test/r3dfox-win64-installer.exe" }] } }

/-- `baseWorld` with a feed carrying no asset matching the win64 pattern. -/
def noAssetWorld : World :=
  { baseWorld with
    fetch := some { tag_name := "v144.0.2"
                    assets := [{ name := "r3dfox-win32-installer.exe"
                                 url := "https://dl.test/a" },
                               { name := "source.tar.gz"
                                 url := "https://dl.test/b" }] } }

/-- `baseWorld` with no `application.ini`. -/
def noIniWorld : World := { baseWorld with appIniExists := false, appIniRead := none }

/-- `baseWorld` where the feed tag equals the installed version exactly. -/
def equalWorld : World :=
  { baseWorld with
    fetch := some { tag_name := "140.5.0"
                    assets := [{ name := "r3dfox-win64-installer.exe"
                                 url := "https://dl.test/r3dfox-win64-installer.exe" }] } }

/-! ### Shape lemmas about the installed-version regex -/

/-- A nonempty result of the group repetition starts with (hence contains)
a dot. -/
theorem takeGroupsF_dot (f : Nat) (cs : List Char) :
    (takeGroupsF f cs).1 = [] ∨ '.' ∈ (takeGroupsF f cs).1 := by
  cases f with
  | zero => exact Or.inl rfl
  | succ f =>
    cases cs with
    | nil => exact Or.inl rfl
    | cons c cs =>
      simp only [takeGroupsF]
      split
      · split
        · exact Or.inl rfl
        · right; simp
      · exact Or.inl rfl

/-- A successful match of `\d+(?:\.\d+)+` contains a dot. -/
theorem matchVersionAt_dot {cs m : List Char} (h : matchVersionAt cs = some m) :
    '.' ∈ m := by
  unfold matchVersionAt at h
  rcases h1 : takeDigits cs with ⟨d, r⟩
  rw [h1] at h
  cases d with
  | nil => exact absurd h (by simp)
  | cons d0 ds =>
    dsimp only at h
    rcases h2 : takeGroupsF (r.length + 1) r with ⟨g, rest⟩
    rw [h2] at h
    cases g with
    | nil => exact absurd h (by simp)
    | cons g0 gs =>
      have hone := takeGroupsF_dot (r.length + 1) r
      rw [h2] at hone
      simp only [Option.some.injEq] at h
      subst h
      rcases hone with hnil | hdot
      · exact absurd hnil (by simp)
      · exact List.mem_append_right _ hdot

/-- Any version string the regex search extracts contains a dot. -/
theorem searchVersionIn_dot {cs m : List Char} (h : searchVersionIn cs = some m) :
    '.' ∈ m := by
  induction cs with
  | nil => exact absurd h (by simp [searchVersionIn])
  | cons c cs ih =>
    unfold searchVersionIn at h
    by_cases hs : listStarts "Version=".data (c :: cs)
    · rw [if_pos hs] at h
      rcases h3 : matchVersionAt (List.drop 8 (c :: cs)) with _ | m'
      · rw [h3] at h
        exact ih h
      · rw [h3] at h
        simp only [Option.some.injEq] at h
        subst h
        exact matchVersionAt_dot h3
    · rw [if_neg hs] at h
      exact ih h

/-- Any version string `get_current_version` returns contains a dot. -/
theorem get_current_version_dot {w : World} {v : String}
    (h : (get_current_version w).1 = some v) : '.' ∈ v.data := by
  unfold get_current_version at h
  by_cases he : w.appIniExists
  · simp only [he, Bool.not_true, Bool.false_eq_true, if_false] at h
    rcases hr : w.appIniRead with _ | content
    · rw [hr] at h
      exact absurd h (by simp)
    · rw [hr] at h
      dsimp only at h
      rcases h4 : searchVersionIn content.data with _ | m
      · rw [h4] at h
        exact absurd h (by simp)
      · rw [h4] at h
        simp only [Option.some.injEq] at h
        subst h
        exact searchVersionIn_dot h4
  · simp only [he] at h
    exact absurd h (by simp)

/-- Any version string `get_current_version` returns is non-empty, so it is
truthy where the script tests it. -/
theorem get_current_version_ne_empty {w : World} {v : String}
    (h : (get_current_version w).1 = some v) : v ≠ "" := by
  intro hv
  have hd := get_current_version_dot h
  rw [hv] at hd
  exact absurd hd (by simp)

/-! ### Helper lemmas about the comparison and the phases -/

/-- Python string `<=` is reflexive. -/
theorem pyListLe_refl (cs : List Char) : pyListLe cs cs = true := by
  induction cs with
  | nil => rfl
  | cons c cs ih => simp [pyListLe, ih]

/-- Python string `<=` is reflexive. -/
theorem pyStrLe_refl (s : String) : pyStrLe s s = true := pyListLe_refl s.data

/-- `List.find?` returns the first element satisfying the test: the list
splits around the result, everything before it failing the test. -/
theorem find?_splits {α : Type} (p : α → Bool) :
    ∀ (l : List α) (a : α), l.find? p = some a →
      ∃ l₁ l₂, l = l₁ ++ a :: l₂ ∧ p a = true ∧ ∀ b ∈ l₁, p b = false := by
  intro l
  induction l with
  | nil => intro a h; exact absurd h (by simp)
  | cons x xs ih =>
    intro a h
    by_cases hx : p x
    · rw [List.find?_cons_of_pos _ hx] at h
      obtain rfl : x = a := by injection h
      exact ⟨[], xs, rfl, hx, by simp⟩
    · rw [List.find?_cons_of_neg _ (by simpa using hx)] at h
      obtain ⟨l₁, l₂, hsplit, hpa, hall⟩ := ih a h
      refine ⟨x :: l₁, l₂, by simp [hsplit], hpa, ?_⟩
      intro b hb
      rcases List.mem_cons.mp hb with rfl | hb
      · simpa using hx
      · exact hall b hb

/-- The trace of the download-and-install phase when the download succeeds:
download GET, file creation, child spawn, and the `finally` removal of the
downloaded file — on each of the three execution outcomes. -/
theorem installPhase_ops_dl (w : World) (t n u : String) (o : List String)
    (ops : List Op) (hdl : w.downloadOk = true) :
    (installPhase w t n u o ops).ops =
      ops ++ [Op.httpGet u [] none, Op.createFile (w.tempDir ++ "\\" ++ n),
              Op.runProc [w.tempDir ++ "\\" ++ n, "/S"],
              Op.removeFile (w.tempDir ++ "\\" ++ n)] := by
  unfold installPhase
  rw [hdl]
  rcases w.runResult with _ | code
  · simp
  · by_cases hc : code = 0 <;> simp [hc]

/-- The trace of the download-and-install phase when the download fails:
only the download GET; in particular no file is created and none removed. -/
theorem installPhase_ops_nodl (w : World) (t n u : String) (o : List String)
    (ops : List Op) (hdl : w.downloadOk = false) :
    (installPhase w t n u o ops).ops = ops ++ [Op.httpGet u [] none] := by
  unfold installPhase
  rw [hdl]
  simp

/-- Output lines accumulated before the install phase survive it. -/
theorem installPhase_output_sup (w : World) (t n u : String) (o : List String)
    (ops : List Op) {s : String} (hs : s ∈ o) :
    s ∈ (installPhase w t n u o ops).output := by
  unfold installPhase
  by_cases hdl : w.downloadOk
  · simp only [hdl, if_true]
    rcases w.runResult with _ | code
    · simp [hs]
    · by_cases hc : code = 0 <;> simp [hc, hs]
  · simp [hdl, hs]

/-- On child exit 0 after a successful download, the phase exits 0 and
reports the success line naming the tag. -/
theorem installPhase_success (w : World) (t n u : String) (o : List String)
    (ops : List Op) (hdl : w.downloadOk = true) (hrun : w.runResult = some 0) :
    (installPhase w t n u o ops).exitCode = 0 ∧
    ("Installation completed successfully. Updated to " ++ t ++ ".") ∈
      (installPhase w t n u o ops).output := by
  unfold installPhase
  rw [hdl, hrun]
  simp

/-- With a matching asset, selection hands over to the install phase. -/
theorem selectPhase_some (w : World) (arch t : String) (assets : List Asset)
    (o : List String) (ops : List Op) {a : Asset}
    (ha : findAsset arch assets = some a) :
    selectPhase w arch t assets o ops =
      installPhase w t a.name a.url (o ++ ["Found installer: " ++ a.name]) ops := by
  unfold selectPhase
  rw [ha]

/-- With no matching asset, selection exits 1, reports the failure, and
lists every asset of the feed. -/
theorem selectPhase_none (w : World) (arch t : String) (assets : List Asset)
    (o : List String) (ops : List Op) (ha : findAsset arch assets = none) :
    selectPhase w arch t assets o ops =
      ⟨1, o ++ ["No matching installer .exe found for " ++ arch ++ ".",
            "Available assets:"] ++ assets.map (fun b => "  - " ++ b.name), ops⟩ := by
  unfold selectPhase
  rw [ha]

/-- Once the sanity checks pass, the fetch succeeds and the up-to-date test
fails, the script is the selection phase applied to the fetched assets, with
the feed query the only operation so far; when no version was read, the
warning line is already in the accumulated output. -/
theorem script_selection (w : World) (d : ReleaseData)
    (hplat : w.platformSystem = "Windows")
    (hdir : w.installDirExists = true)
    (hexe : w.firefoxExeExists = true)
    (hf : w.fetch = some d)
    (hnot : ∀ v, (get_current_version w).1 = some v → pyStrLe d.tag_name v = false) :
    ∃ o, script w = selectPhase w (detectArch w.sysMaxsizeGt32 w.archEnv)
        d.tag_name d.assets o [Op.httpGet LATEST_API [] none] ∧
      ((get_current_version w).1 = none →
        "Warning: Could not detect current version. Proceeding anyway." ∈ o) := by
  unfold script
  rw [hplat, hdir, hexe, hf]
  simp only [beq_self_eq_true, Bool.not_true, Bool.false_eq_true, if_false,
    Bool.not_false, if_true, Bool.not_eq_true]
  rcases hcv : (get_current_version w).1 with _ | v
  · exact ⟨_, rfl, fun _ => by simp⟩
  · have hle := hnot v hcv
    dsimp only
    rw [hle]
    simp only [Bool.and_false, Bool.false_eq_true, if_false]
    exact ⟨_, rfl, fun hc => absurd hc (by simp)⟩

/-- The download GET is issued whether or not it succeeds. -/
theorem installPhase_dl_get (w : World) (t n u : String) (o : List String)
    (ops : List Op) : Op.httpGet u [] none ∈ (installPhase w t n u o ops).ops := by
  by_cases hdl : w.downloadOk
  · rw [installPhase_ops_dl w t n u o ops hdl]
    simp
  · rw [installPhase_ops_nodl w t n u o ops (by simpa using hdl)]
    simp

/-! ### The claims -/

/-- C1: the update decision at lines 98-101 of the source compares version
strings with plain string `<=`, which is lexicographic, not numeric.  With
installed version `9.0` and feed tag `10.0` the numeric policy the spec
prescribes finds an update available (`9.0 < 10.0`), yet the script deems
`"10.0" <= "9.0"`, reports up to date, and exits 0 with no download. -/
theorem lexical_compare_misorders_nine_ten :
    specVersionLt "9.0" "10.0" = true ∧
    pyStrLe "10.0" "9.0" = true ∧
    script nineTenWorld =
      { exitCode := 0
        output := ["Detected architecture: win64", "Current version: 9.0",
          "Fetching latest r3dfox release info...", "Latest version: 10.0",
          "Current version 9.0 is up to date or newer than 10.0. No update needed."]
        ops := [Op.httpGet LATEST_API [] none] } := by
  refine ⟨by decide, by decide, by decide⟩

/-- C3: when the installed version is readable and the feed tag equals it
exactly, the script prints the up-to-date line, exits 0, and its only side
effect is the feed query — no asset download. -/
theorem equal_tag_exits_zero_without_download (w : World) (d : ReleaseData) (v : String)
    (hplat : w.platformSystem = "Windows")
    (hdir : w.installDirExists = true)
    (hexe : w.firefoxExeExists = true)
    (hv : (get_current_version w).1 = some v)
    (hf : w.fetch = some d)
    (htag : d.tag_name = v) :
    (script w).exitCode = 0 ∧
    ("Current version " ++ v ++ " is up to date or newer than " ++ v ++
      ". No update needed.") ∈ (script w).output ∧
    (script w).ops = [Op.httpGet LATEST_API [] none] := by
  have hne : (v == "") = false :=
    beq_eq_false_iff_ne.mpr (get_current_version_ne_empty hv)
  have hle : pyStrLe d.tag_name v = true := htag ▸ pyStrLe_refl v
  unfold script
  rw [hplat, hdir, hexe, hf]
  simp only [beq_self_eq_true, Bool.not_true, Bool.false_eq_true, if_false,
    Bool.not_false, if_true]
  rw [hv]
  dsimp only
  rw [hne, hle, htag]
  simp

/-- Witness for C3: installed `140.5.0`, feed tag `140.5.0`. -/
theorem equal_tag_exits_zero_without_download_witness :
    (script equalWorld).exitCode = 0 ∧
    ("Current version " ++ "140.5.0" ++ " is up to date or newer than " ++ "140.5.0" ++
      ". No update needed.") ∈ (script equalWorld).output ∧
    (script equalWorld).ops = [Op.httpGet LATEST_API [] none] :=
  equal_tag_exits_zero_without_download equalWorld
    { tag_name := "140.5.0"
      assets := [{ name := "r3dfox-win64-installer.exe"
                   url := "https://dl.test/r3dfox-win64-installer.exe" }] }
    "140.5.0" rfl rfl rfl (by decide) rfl rfl

/-- C4 counterexample: in the end-to-end scenario (installed `140.5.0`, feed
tag `v144.0.2`, matching asset, child exit 0) the script reports the tag
verbatim — `Updated to v144.0.2.` — and never a stripped `144.0.2`: no
leading-`v` stripping happens anywhere in the source. -/
theorem success_report_keeps_leading_v :
    (script baseWorld).exitCode = 0 ∧
    "Latest version: v144.0.2" ∈ (script baseWorld).output ∧
    "Installation completed successfully. Updated to v144.0.2." ∈ (script baseWorld).output ∧
    "Installation completed successfully. Updated to 144.0.2." ∉ (script baseWorld).output := by
  decide

/-- C4 amended: the fetched `tag_name` is used verbatim — no leading `v` is
stripped — both in the update comparison and in the success report: on child
exit 0 the script reports `Updated to <tag>.` with the tag unchanged. -/
theorem success_reports_verbatim_tag (w : World) (d : ReleaseData) (a : Asset)
    (hplat : w.platformSystem = "Windows")
    (hdir : w.installDirExists = true)
    (hexe : w.firefoxExeExists = true)
    (hf : w.fetch = some d)
    (hnot : ∀ v, (get_current_version w).1 = some v → pyStrLe d.tag_name v = false)
    (ha : findAsset (detectArch w.sysMaxsizeGt32 w.archEnv) d.assets = some a)
    (hdl : w.downloadOk = true)
    (hrun : w.runResult = some 0) :
    (script w).exitCode = 0 ∧
    ("Installation completed successfully. Updated to " ++ d.tag_name ++ ".") ∈
      (script w).output := by
  obtain ⟨o, hs, _⟩ := script_selection w d hplat hdir hexe hf hnot
  rw [hs, selectPhase_some _ _ _ _ _ _ ha]
  exact installPhase_success w d.tag_name a.name a.url _ _ hdl hrun

/-- Witness for the amended C4 at the end-to-end environment. -/
theorem success_reports_verbatim_tag_witness :
    (script baseWorld).exitCode = 0 ∧
    ("Installation completed successfully. Updated to " ++ "v144.0.2" ++ ".") ∈
      (script baseWorld).output :=
  success_reports_verbatim_tag baseWorld
    { tag_name := "v144.0.2"
      assets := [{ name := "r3dfox-win64-installer.exe"
                   url := "https://dl.test/r3dfox-win64-installer.exe" }] }
    { name := "r3dfox-win64-installer.exe"
      url := "https://dl.test/r3dfox-win64-installer.exe" }
    rfl rfl rfl rfl
    (fun v hv => by
      have h0 : (get_current_version baseWorld).1 = some "140.5.0" := by decide
      rw [h0] at hv
      obtain rfl : "140.5.0" = v := by injection hv
      decide)
    (by decide) rfl rfl

/-- C2 counterexample: the trace of a fully successful run is exactly a feed
query, a download, one file created in the shared OS temp directory, the
child spawn and one file removal — at no point is any directory created, so
no fresh, uniquely-named scratch directory exists to be cleaned up. -/
theorem run_creates_no_directory :
    (script baseWorld).exitCode = 0 ∧
    (script baseWorld).ops =
      [Op.httpGet LATEST_API [] none,
       Op.httpGet "https://dl.test/r3dfox-win64-installer.exe" [] none,
       Op.createFile "C:\\Temp\\r3dfox-win64-installer.exe",
       Op.runProc ["C:\\Temp\\r3dfox-win64-installer.exe", "/S"],
       Op.removeFile "C:\\Temp\\r3dfox-win64-installer.exe"] ∧
    (script baseWorld).ops.any Op.isMkdir = false := by
  decide

/-- C2 amended: the script stages the download as a single file inside the
pre-existing OS temp directory and creates no directory on any path; when
the download succeeds, the file is removed on each exit path of the
installer-execution phase (child exit 0, non-zero exit, exception), and when
the download fails no file was created and none is removed. -/
theorem scratch_file_cleanup (w : World) (d : ReleaseData) (a : Asset)
    (hplat : w.platformSystem = "Windows")
    (hdir : w.installDirExists = true)
    (hexe : w.firefoxExeExists = true)
    (hf : w.fetch = some d)
    (hnot : ∀ v, (get_current_version w).1 = some v → pyStrLe d.tag_name v = false)
    (ha : findAsset (detectArch w.sysMaxsizeGt32 w.archEnv) d.assets = some a) :
    (∀ p, Op.mkdir p ∉ (script w).ops) ∧
    (w.downloadOk = true →
      (script w).ops =
        [Op.httpGet LATEST_API [] none, Op.httpGet a.url [] none,
         Op.createFile (w.tempDir ++ "\\" ++ a.name),
         Op.runProc [w.tempDir ++ "\\" ++ a.name, "/S"],
         Op.removeFile (w.tempDir ++ "\\" ++ a.name)]) ∧
    (w.downloadOk = false →
      (script w).ops = [Op.httpGet LATEST_API [] none, Op.httpGet a.url [] none]) := by
  obtain ⟨o, hs, _⟩ := script_selection w d hplat hdir hexe hf hnot
  rw [hs, selectPhase_some _ _ _ _ _ _ ha]
  refine ⟨?_, ?_, ?_⟩
  · intro p
    by_cases hdl : w.downloadOk
    · rw [installPhase_ops_dl _ _ _ _ _ _ hdl]
      simp
    · rw [installPhase_ops_nodl _ _ _ _ _ _ (by simpa using hdl)]
      simp
  · intro hdl
    rw [installPhase_ops_dl _ _ _ _ _ _ hdl]
    rfl
  · intro hdl
    rw [installPhase_ops_nodl _ _ _ _ _ _ hdl]
    rfl

/-- Witness for the amended C2 at the end-to-end environment. -/
theorem scratch_file_cleanup_witness :
    (∀ p, Op.mkdir p ∉ (script baseWorld).ops) ∧
    (baseWorld.downloadOk = true →
      (script baseWorld).ops =
        [Op.httpGet LATEST_API [] none,
         Op.httpGet "https://dl.test/r3dfox-win64-installer.exe" [] none,
         Op.createFile (baseWorld.tempDir ++ "\\" ++ "r3dfox-win64-installer.exe"),
         Op.runProc [baseWorld.tempDir ++ "\\" ++ "r3dfox-win64-installer.exe", "/S"],
         Op.removeFile (baseWorld.tempDir ++ "\\" ++ "r3dfox-win64-installer.exe")]) ∧
    (baseWorld.downloadOk = false →
      (script baseWorld).ops =
        [Op.httpGet LATEST_API [] none,
         Op.httpGet "https://dl.test/r3dfox-win64-installer.exe" [] none]) :=
  scratch_file_cleanup baseWorld
    { tag_name := "v144.0.2"
      assets := [{ name := "r3dfox-win64-installer.exe"
                   url := "https://dl.test/r3dfox-win64-installer.exe" }] }
    { name := "r3dfox-win64-installer.exe"
      url := "https://dl.test/r3dfox-win64-installer.exe" }
    rfl rfl rfl rfl
    (fun v hv => by
      have h0 : (get_current_version baseWorld).1 = some "140.5.0" := by decide
      rw [h0] at hv
      obtain rfl : "140.5.0" = v := by injection hv
      decide)
    (by decide)

/-- C5: whenever `application.ini` is absent, unreadable, or lacks a line
the version regex recognizes, the reader yields `none` (it is a total
function: nothing is raised), and the script prints the warning and
proceeds to selection and download instead of stopping. -/
theorem unreadable_version_warns_and_proceeds (w : World) (d : ReleaseData) (a : Asset)
    (hplat : w.platformSystem = "Windows")
    (hdir : w.installDirExists = true)
    (hexe : w.firefoxExeExists = true)
    (hbad : w.appIniExists = false ∨ w.appIniRead = none ∨
      ∃ content, w.appIniRead = some content ∧ searchVersionIn content.data = none)
    (hf : w.fetch = some d)
    (ha : findAsset (detectArch w.sysMaxsizeGt32 w.archEnv) d.assets = some a) :
    (get_current_version w).1 = none ∧
    "Warning: Could not detect current version. Proceeding anyway." ∈ (script w).output ∧
    Op.httpGet a.url [] none ∈ (script w).ops := by
  have hcv : (get_current_version w).1 = none := by
    unfold get_current_version
    rcases hbad with h | h | ⟨content, hc, hsearch⟩
    · rw [h]
      rfl
    · by_cases he : w.appIniExists
      · simp [he, h]
      · simp [he]
    · by_cases he : w.appIniExists
      · simp [he, hc, hsearch]
      · simp [he]
  have hnot : ∀ v, (get_current_version w).1 = some v → pyStrLe d.tag_name v = false := by
    intro v hv
    rw [hcv] at hv
    exact absurd hv (by simp)
  obtain ⟨o, hs, hwarn⟩ := script_selection w d hplat hdir hexe hf hnot
  refine ⟨hcv, ?_, ?_⟩
  · rw [hs, selectPhase_some _ _ _ _ _ _ ha]
    exact installPhase_output_sup _ _ _ _ _ _
      (List.mem_append.mpr (Or.inl (hwarn hcv)))
  · rw [hs, selectPhase_some _ _ _ _ _ _ ha]
    exact installPhase_dl_get _ _ _ _ _ _

/-- Witness for C5: no `application.ini` at all. -/
theorem unreadable_version_warns_and_proceeds_witness :
    (get_current_version noIniWorld).1 = none ∧
    "Warning: Could not detect current version. Proceeding anyway." ∈
      (script noIniWorld).output ∧
    Op.httpGet "https://dl.test/r3dfox-win64-installer.exe" [] none ∈
      (script noIniWorld).ops :=
  unreadable_version_warns_and_proceeds noIniWorld
    { tag_name := "v144.0.2"
      assets := [{ name := "r3dfox-win64-installer.exe"
                   url := "https://dl.test/r3dfox-win64-installer.exe" }] }
    { name := "r3dfox-win64-installer.exe"
      url := "https://dl.test/r3dfox-win64-installer.exe" }
    rfl rfl rfl (Or.inl rfl) rfl (by decide)

/-- C6: asset selection returns the first asset, in feed order, whose
lowercased name contains the per-architecture pattern and ends in `.exe`;
when nothing matches, the script exits 1, reports the failure for the
architecture, and lists every available asset name, with no further side
effect. -/
theorem first_match_or_listed_diagnostics (w : World) (d : ReleaseData) (arch : String)
    (hplat : w.platformSystem = "Windows")
    (hdir : w.installDirExists = true)
    (hexe : w.firefoxExeExists = true)
    (hf : w.fetch = some d)
    (harch : detectArch w.sysMaxsizeGt32 w.archEnv = arch)
    (hnot : ∀ v, (get_current_version w).1 = some v → pyStrLe d.tag_name v = false) :
    (∀ a, findAsset arch d.assets = some a →
      ∃ l₁ l₂, d.assets = l₁ ++ a :: l₂ ∧ assetMatches arch a.name = true ∧
        ∀ b ∈ l₁, assetMatches arch b.name = false) ∧
    (findAsset arch d.assets = none →
      (script w).exitCode = 1 ∧
      ("No matching installer .exe found for " ++ arch ++ ".") ∈ (script w).output ∧
      "Available assets:" ∈ (script w).output ∧
      (∀ b ∈ d.assets, ("  - " ++ b.name) ∈ (script w).output) ∧
      (script w).ops = [Op.httpGet LATEST_API [] none]) := by
  constructor
  · intro a ha
    exact find?_splits _ d.assets a ha
  · intro hnone
    obtain ⟨o, hs, _⟩ := script_selection w d hplat hdir hexe hf hnot
    rw [harch] at hs
    rw [hs, selectPhase_none _ _ _ _ _ _ hnone]
    refine ⟨rfl, by simp, by simp, ?_, rfl⟩
    intro b hb
    simp [List.mem_append, List.mem_map]
    exact Or.inr (Or.inr (Or.inr ⟨b, hb, rfl⟩))

/-- Witness for C6: a feed whose assets are a win32 installer and a source
archive, none matching the win64 pattern. -/
theorem first_match_or_listed_diagnostics_witness :
    (∀ a, findAsset "win64"
        [({ name := "r3dfox-win32-installer.exe", url := "https://dl.test/a" } : Asset),
         { name := "source.tar.gz", url := "https://dl.test/b" }] = some a →
      ∃ l₁ l₂,
        [({ name := "r3dfox-win32-installer.exe", url := "https://dl.test/a" } : Asset),
         { name := "source.tar.gz", url := "https://dl.test/b" }] = l₁ ++ a :: l₂ ∧
        assetMatches "win64" a.name = true ∧
        ∀ b ∈ l₁, assetMatches "win64" b.name = false) ∧
    (findAsset "win64"
        [({ name := "r3dfox-win32-installer.exe", url := "https://dl.test/a" } : Asset),
         { name := "source.tar.gz", url := "https://dl.test/b" }] = none →
      (script noAssetWorld).exitCode = 1 ∧
      ("No matching installer .exe found for " ++ "win64" ++ ".") ∈
        (script noAssetWorld).output ∧
      "Available assets:" ∈ (script noAssetWorld).output ∧
      (∀ b ∈ [({ name := "r3dfox-win32-installer.exe", url := "https://dl.test/a" } : Asset),
              { name := "source.tar.gz", url := "https://dl.test/b" }],
        ("  - " ++ b.name) ∈ (script noAssetWorld).output) ∧
      (script noAssetWorld).ops = [Op.httpGet LATEST_API [] none]) :=
  first_match_or_listed_diagnostics noAssetWorld
    { tag_name := "v144.0.2"
      assets := [{ name := "r3dfox-win32-installer.exe", url := "https://dl.test/a" },
                 { name := "source.tar.gz", url := "https://dl.test/b" }] }
    "win64" rfl rfl rfl rfl rfl
    (fun v hv => by
      have h0 : (get_current_version noAssetWorld).1 = some "140.5.0" := by decide
      rw [h0] at hv
      obtain rfl : "140.5.0" = v := by injection hv
      decide)

/-- C7 counterexample: the two GETs of a successful end-to-end run are both
issued with no custom header (the library's default client identification,
not a descriptive one) and with no timeout at all — in particular no longer
bound on the download. -/
theorem both_requests_default_client :
    httpCalls (script baseWorld).ops =
      [(LATEST_API, [], none),
       ("https://dl.test/r3dfox-win64-installer.exe", [], none)] := by
  decide

/-- C7 amended: every HTTP request the script issues is a bare
`urllib.request.urlopen(url)`: the feed query and the asset download both
carry no custom header and no explicit timeout. -/
theorem requests_have_no_header_no_timeout (w : World) (d : ReleaseData) (a : Asset)
    (hplat : w.platformSystem = "Windows")
    (hdir : w.installDirExists = true)
    (hexe : w.firefoxExeExists = true)
    (hf : w.fetch = some d)
    (hnot : ∀ v, (get_current_version w).1 = some v → pyStrLe d.tag_name v = false)
    (ha : findAsset (detectArch w.sysMaxsizeGt32 w.archEnv) d.assets = some a) :
    httpCalls (script w).ops = [(LATEST_API, [], none), (a.url, [], none)] := by
  obtain ⟨o, hs, _⟩ := script_selection w d hplat hdir hexe hf hnot
  rw [hs, selectPhase_some _ _ _ _ _ _ ha]
  by_cases hdl : w.downloadOk
  · rw [installPhase_ops_dl _ _ _ _ _ _ hdl]
    rfl
  · rw [installPhase_ops_nodl _ _ _ _ _ _ (by simpa using hdl)]
    rfl

/-- Witness for the amended C7 at the end-to-end environment. -/
theorem requests_have_no_header_no_timeout_witness :
    httpCalls (script baseWorld).ops =
      [(LATEST_API, [], none),
       ("https://dl.test/r3dfox-win64-installer.exe", [], none)] :=
  requests_have_no_header_no_timeout baseWorld
    { tag_name := "v144.0.2"
      assets := [{ name := "r3dfox-win64-installer.exe"
                   url := "https://dl.test/r3dfox-win64-installer.exe" }] }
    { name := "r3dfox-win64-installer.exe"
      url := "https://dl.test/r3dfox-win64-installer.exe" }
    rfl rfl rfl rfl
    (fun v hv => by
      have h0 : (get_current_version baseWorld).1 = some "140.5.0" := by decide
      rw [h0] at hv
      obtain rfl : "140.5.0" = v := by injection hv
      decide)
    (by decide)

/-- C8: the architecture is `win64` exactly when the interpreter reports a
word size above 2^32 or `PROCESSOR_ARCHITEW6432` holds a non-empty string,
and `win32` otherwise; in particular a 32-bit process under 64-bit Windows
(small word size, variable set to `AMD64`) is classified `win64`. -/
theorem arch_win64_iff (m : Bool) (e : String) :
    (detectArch m e = "win64" ↔ (m = true ∨ e ≠ "")) ∧
    detectArch false "AMD64" = "win64" := by
  refine ⟨?_, by decide⟩
  unfold detectArch
  cases m with
  | true => simp
  | false =>
    by_cases he : e = ""
    · subst he
      simp
    · have hb : (e == "") = false := beq_eq_false_iff_ne.mpr he
      simp [hb, he]

/-- C9: the installed-version regex requires at least two dot-separated
integer components: every version the reader extracts contains a dot, and
on a metadata file whose version line is the single integer `Version=144`
the reader returns `none`. -/
theorem reader_requires_two_components :
    (∀ (w : World) (v : String), (get_current_version w).1 = some v → '.' ∈ v.data) ∧
    (get_current_version
      { baseWorld with appIniRead := some "[App]\nVersion=144\n" }).1 = none :=
  ⟨fun _ _ h => get_current_version_dot h, by decide⟩

/-- C10: whether an asset passes the selection test depends on its name only
through its lowercasing, so matching is invariant under changing the letter
case of the name, for every architecture. -/
theorem asset_match_case_insensitive (arch n₁ n₂ : String)
    (h : lowerList n₁.data = lowerList n₂.data) :
    assetMatches arch n₁ = assetMatches arch n₂ := by
  unfold assetMatches
  rw [h]

/-- Witness for C10: `R3DFOX-Win64-INSTALLER.EXE` and
`r3dfox-win64-installer.exe` are equal up to case and match identically. -/
theorem asset_match_case_insensitive_witness :
    assetMatches "win64" "R3DFOX-Win64-INSTALLER.EXE" =
      assetMatches "win64" "r3dfox-win64-installer.exe" :=
  asset_match_case_insensitive "win64" "R3DFOX-Win64-INSTALLER.EXE"
    "r3dfox-win64-installer.exe" (by decide)

end R3d
